import Mathlib

/-!
Shallow embedding of the archon-ai-tester pipeline:
`src/core/models.py`, `src/core/exceptions.py`, `src/archon/client.py`
and `src/archon_agent_tester.py`.

Conventions of the embedding:
* Python `datetime` values are modelled as integers counting microseconds
  (the resolution of `datetime`); arithmetic on them is exact.
* Python dictionaries are modelled as insertion-ordered association lists;
  `pyDictSet` mirrors `d[k] = v` (replace in place when the key exists,
  append otherwise).
* Python exceptions are modelled by the inductive `PyExc`; a raising call
  returns `Except PyExc α`.
* The collaborator modules that are not part of the sources here
  (`archon.adapter`, `execution.engine`, `openrouter.client`,
  `reporting.generators`) enter as explicit environment records of
  effectful operations, except where a claim depends on their behaviour,
  in which case a definition modelled from the spec is supplied and
  marked as such.
-/

namespace ArchonAiTester

/-- Python `datetime`, at microsecond resolution. -/
abbrev Datetime := Int

/-- Loosely typed Python values as they occur in the `Dict[str, Union[...]]`
fields of the models (`str`, numbers, lists, nested dicts). -/
inductive PyVal where
  | vStr (s : String)
  | vNum (q : ℚ)
  | vList (xs : List PyVal)
  | vDict (m : List (String × PyVal))

/-- Python `str(value)` as used in f-strings, for the value shapes we carry.
Only the `vStr` case is relied upon by any theorem. -/
def PyVal.toStr : PyVal → String
  | .vStr s => s
  | .vNum q => toString q
  | .vList _ => "[...]"
  | .vDict _ => "{...}"

/-- The exception model: the tester's own taxonomy from
`src/core/exceptions.py`, plus the built-in Python exceptions the code can
raise (`ValueError`, `NameError`, `KeyError`, pydantic's `ValidationError`,
and a catch-all for exceptions foreign to this package). -/
inductive PyExc where
  | configurationError (msg : String)
  | archonAPIError (msg : String)
  | openRouterAPIError (msg : String)
  | testCaseNotFoundError (msg : String)
  | testSuiteNotFoundError (msg : String)
  | agentNotFoundError (msg : String)
  | testExecutionError (msg : String)
  | evaluationError (msg : String)
  | reportGenerationError (msg : String)
  | archonAgentTesterError (msg : String)
  | valueError (msg : String)
  | nameError (msg : String)
  | keyError (msg : String)
  | validationError (msg : String)
  | otherError (msg : String)
  deriving DecidableEq, Repr

/-- Python `str(e)` for a single-argument exception: its message. -/
def PyExc.toStr : PyExc → String
  | .configurationError m => m
  | .archonAPIError m => m
  | .openRouterAPIError m => m
  | .testCaseNotFoundError m => m
  | .testSuiteNotFoundError m => m
  | .agentNotFoundError m => m
  | .testExecutionError m => m
  | .evaluationError m => m
  | .reportGenerationError m => m
  | .archonAgentTesterError m => m
  | .valueError m => m
  | .nameError m => m
  | .keyError m => m
  | .validationError m => m
  | .otherError m => m

/-- `isinstance(e, ArchonAgentTesterError)`: true exactly for the classes of
`src/core/exceptions.py`, which all inherit from `ArchonAgentTesterError`. -/
def PyExc.isArchonAgentTesterError : PyExc → Bool
  | .configurationError _ => true
  | .archonAPIError _ => true
  | .openRouterAPIError _ => true
  | .testCaseNotFoundError _ => true
  | .testSuiteNotFoundError _ => true
  | .agentNotFoundError _ => true
  | .testExecutionError _ => true
  | .evaluationError _ => true
  | .reportGenerationError _ => true
  | .archonAgentTesterError _ => true
  | .valueError _ => false
  | .nameError _ => false
  | .keyError _ => false
  | .validationError _ => false
  | .otherError _ => false

/-- Python dict assignment `d[k] = v`: replace the value in place when the
key is present, append the pair otherwise. -/
def pyDictSet {α : Type} (m : List (String × α)) (k : String) (v : α) :
    List (String × α) :=
  match m with
  | [] => [(k, v)]
  | (k', v') :: rest =>
      if k' = k then (k, v) :: rest else (k', v') :: pyDictSet rest k v

/-- Python dict subscript `d[k]`: the value, or a `KeyError`. -/
def pyDictGet {α : Type} (m : List (String × α)) (k : String) :
    Except PyExc α :=
  match m.lookup k with
  | some v => .ok v
  | none => .error (.keyError k)

/-- Python `dict.update(other)`: set every pair of `other` into `base`. -/
def pyDictUpdate {α : Type} (base upd : List (String × α)) :
    List (String × α) :=
  upd.foldl (fun m p => pyDictSet m p.1 p.2) base

/-- `TestStatus` from `src/core/models.py`. -/
inductive TestStatus where
  | pending
  | running
  | passed
  | failed
  | error
  | skipped
  deriving DecidableEq, Repr

/-- `TestType` from `src/core/models.py`. -/
inductive TestType where
  | functional
  | performance
  | reliability
  | safety
  | custom
  deriving DecidableEq, Repr

/-- The serialized name of a `TestType` (its enum value string). -/
def TestType.toStr : TestType → String
  | .functional => "functional"
  | .performance => "performance"
  | .reliability => "reliability"
  | .safety => "safety"
  | .custom => "custom"

/-- Python `TestType(s)`: enum lookup by value, `ValueError` when the string
matches no member. -/
def TestType.ofString (s : String) : Except PyExc TestType :=
  if s = "functional" then .ok .functional
  else if s = "performance" then .ok .performance
  else if s = "reliability" then .ok .reliability
  else if s = "safety" then .ok .safety
  else if s = "custom" then .ok .custom
  else .error (.valueError (s ++ " is not a valid TestType"))

/-- `TestCase` from `src/core/models.py`. -/
structure TestCase where
  id : String
  name : String
  description : String
  test_type : TestType
  inputs : List (String × PyVal)
  expected_outputs : Option (List (String × PyVal))
  evaluation_criteria : List (String × PyVal)
  tags : List String
  timeout : Int

/-- The `validate_criteria` validator of `TestCase`: rejects a falsy
(empty) `evaluation_criteria` mapping. -/
def TestCase.validate_criteria (v : List (String × PyVal)) :
    Except PyExc (List (String × PyVal)) :=
  if v.isEmpty then
    .error (.validationError "At least one evaluation criterion must be provided")
  else .ok v

/-- Pydantic construction `TestCase(...)`: runs `validate_criteria`;
a `ValueError` raised there surfaces as a pydantic `ValidationError`. -/
def TestCase.create (id name description : String) (test_type : TestType)
    (inputs : List (String × PyVal))
    (expected_outputs : Option (List (String × PyVal)))
    (evaluation_criteria : List (String × PyVal))
    (tags : List String := []) (timeout : Int := 30) :
    Except PyExc TestCase :=
  match TestCase.validate_criteria evaluation_criteria with
  | .error e => .error e
  | .ok crit =>
      .ok { id, name, description, test_type, inputs, expected_outputs,
            evaluation_criteria := crit, tags, timeout }

/-- `TestResult` from `src/core/models.py`. -/
structure TestResult where
  test_case_id : String
  agent_id : String
  status : TestStatus
  start_time : Datetime
  end_time : Option Datetime
  duration_ms : Option Int
  inputs : List (String × PyVal)
  actual_outputs : Option (List (String × PyVal))
  metrics : List (String × ℚ)
  errors : List String
  logs : List String

/-- The `set_end_time` validator: when `end_time` was not supplied and the
status is terminal-or-beyond (not pending, not running), it becomes
`datetime.now()`; the current time is the explicit `now` argument here. -/
def TestResult.set_end_time (now : Datetime) (v : Option Datetime)
    (status : TestStatus) : Option Datetime :=
  if v = none ∧ status ≠ .pending ∧ status ≠ .running then some now else v

/-- Python `int((end - start).total_seconds() * 1000)` on a difference of
`dus` microseconds: the exact value `dus / 1000` truncated toward zero
(Python `int()` truncates toward zero). -/
def intTruncMs (dus : Int) : Int :=
  if 0 ≤ dus then ((dus.toNat / 1000 : Nat) : Int)
  else -(((-dus).toNat / 1000 : Nat) : Int)

/-- Python `round((end - start).total_seconds() * 1000)` on a difference of
`dus` microseconds: `dus / 1000` rounded half-to-even. This is the formula
the spec states; the source uses `intTruncMs` instead. -/
def roundHalfEvenMs (dus : Int) : Int :=
  let q := Int.ediv dus 1000
  let r := Int.emod dus 1000
  if 2 * r < 1000 then q
  else if 1000 < 2 * r then q + 1
  else if Int.emod q 2 = 0 then q else q + 1

/-- The `calculate_duration` validator: when `duration_ms` was not supplied
and both timestamps are present (a `datetime` is always truthy), it is the
truncated millisecond difference. -/
def TestResult.calculate_duration (v : Option Int) (end_time : Option Datetime)
    (start_time : Datetime) : Option Int :=
  match v, end_time with
  | none, some e => some (intTruncMs (e - start_time))
  | v, _ => v

/-- Pydantic construction `TestResult(...)`: validators run in field order,
`set_end_time` before `calculate_duration`, the latter seeing the already
derived `end_time`. -/
def TestResult.create (now : Datetime) (test_case_id agent_id : String)
    (status : TestStatus) (start_time : Datetime)
    (end_time : Option Datetime := none) (duration_ms : Option Int := none)
    (inputs : List (String × PyVal) := [])
    (actual_outputs : Option (List (String × PyVal)) := none)
    (metrics : List (String × ℚ) := []) (errors : List String := [])
    (logs : List String := []) : TestResult :=
  let end_time := TestResult.set_end_time now end_time status
  let duration_ms := TestResult.calculate_duration duration_ms end_time start_time
  { test_case_id, agent_id, status, start_time, end_time, duration_ms,
    inputs, actual_outputs, metrics, errors, logs }

/-- `TestSuite` from `src/core/models.py` (no validators). -/
structure TestSuite where
  id : String
  name : String
  description : String
  test_cases : List String
  tags : List String
  created_at : Datetime
  updated_at : Datetime

/-- `TestRun` from `src/core/models.py`. -/
structure TestRun where
  id : String
  agent_id : String
  test_suite_id : String
  status : TestStatus
  start_time : Datetime
  end_time : Option Datetime
  results : List String
  summary : List (String × Int)

/-- The `calculate_summary` validator: when the supplied summary is falsy
(empty) and the results list is truthy (non-empty), fill in the default
summary with `total = len(results)` and every per-status count `0`;
otherwise keep the supplied summary unchanged. -/
def TestRun.calculate_summary (v : List (String × Int)) (results : List String) :
    List (String × Int) :=
  if v.isEmpty ∧ ¬results.isEmpty then
    [("total", (results.length : Int)), ("pending", 0), ("passed", 0),
     ("failed", 0), ("error", 0), ("skipped", 0)]
  else v

/-- Pydantic construction `TestRun(...)`: runs `calculate_summary`
(`always=True`, so also on the defaulted empty summary). -/
def TestRun.create (id agent_id test_suite_id : String) (status : TestStatus)
    (start_time : Datetime) (end_time : Option Datetime := none)
    (results : List String := []) (summary : List (String × Int) := []) :
    TestRun :=
  { id, agent_id, test_suite_id, status, start_time, end_time, results,
    summary := TestRun.calculate_summary summary results }

/-- The sum of the summary counts other than `"total"`. -/
def nonTotalSum (summary : List (String × Int)) : Int :=
  (summary.filter (fun p => p.1 ≠ "total")).foldl (fun a p => a + p.2) 0

/-! ### `src/archon/client.py` -/

/-- An HTTP response as `ArchonClient` observes it: status code, body text,
and the outcome of `response.json()` (which can itself raise). -/
structure HttpResponse where
  status_code : Nat
  text : String
  json : Except PyExc (List (String × PyVal))

/-- httpx's success range: `raise_for_status` raises `HTTPStatusError`
exactly outside 2xx. -/
def HttpResponse.is2xx (r : HttpResponse) : Prop :=
  200 ≤ r.status_code ∧ r.status_code < 300

instance (r : HttpResponse) : Decidable r.is2xx := by
  unfold HttpResponse.is2xx; infer_instance

/-- `ArchonClient._handle_response`: return the parsed body on 2xx,
`AgentNotFoundError` on 404, `ArchonAPIError` with status code and body on
any other non-2xx status; a failure of `response.json()` on a 2xx response
becomes an `ArchonAPIError` via the generic handler. -/
def ArchonClient.handle_response (r : HttpResponse) :
    Except PyExc (List (String × PyVal)) :=
  if r.is2xx then
    match r.json with
    | .ok d => .ok d
    | .error e => .error (.archonAPIError ("Error processing response: " ++ e.toStr))
  else if r.status_code = 404 then
    .error (.agentNotFoundError ("Agent not found: " ++ r.text))
  else
    .error (.archonAPIError ("API error: " ++ toString r.status_code ++ " - " ++ r.text))

/-- The shared `try/except` wrapper of `get_agent` / `invoke_agent` /
`get_agent_metrics` / `update_agent_metadata`: `AgentNotFoundError` is
re-raised unchanged, everything else is wrapped into an `ArchonAPIError`
whose message starts with the given context string. -/
def ArchonClient.wrapNonNotFound (ctx : String)
    (r : Except PyExc (List (String × PyVal))) :
    Except PyExc (List (String × PyVal)) :=
  match r with
  | .ok d => .ok d
  | .error (.agentNotFoundError m) => .error (.agentNotFoundError m)
  | .error e => .error (.archonAPIError (ctx ++ e.toStr))

/-- `ArchonClient.get_agent`: the transport (`self.client.get`) is the
explicit `transport` argument, returning the response or raising. -/
def ArchonClient.get_agent (transport : String → Except PyExc HttpResponse)
    (agent_id : String) : Except PyExc (List (String × PyVal)) :=
  ArchonClient.wrapNonNotFound ("Error getting agent " ++ agent_id ++ ": ")
    (match transport agent_id with
     | .ok r => ArchonClient.handle_response r
     | .error e => .error e)

/-- `ArchonClient.invoke_agent`: the transport (`self.client.post`) is the
explicit `transport` argument. -/
def ArchonClient.invoke_agent
    (transport : String → List (String × PyVal) → Except PyExc HttpResponse)
    (agent_id : String) (inputs : List (String × PyVal)) :
    Except PyExc (List (String × PyVal)) :=
  ArchonClient.wrapNonNotFound ("Error invoking agent " ++ agent_id ++ ": ")
    (match transport agent_id inputs with
     | .ok r => ArchonClient.handle_response r
     | .error e => .error e)

/-! ### `src/archon_agent_tester.py` -/

/-- The collaborators `ArchonTester.test_agent` calls into, as effectful
operations: the Archon client's `get_agent` and `update_agent_metadata`,
and the adapter/engine operations whose sources are not part of this
repository snapshot (`archon.adapter`, `execution.engine`). -/
structure Env where
  get_agent : String → Except PyExc (List (String × PyVal))
  update_agent_metadata :
    String → List (String × PyVal) → Except PyExc (List (String × PyVal))
  generate_test_cases_for_agent : String → TestType → Except PyExc (List TestCase)
  create_test_suite : String → List TestCase → String → String → Except PyExc TestSuite
  execute_test_suite : String → String → Except PyExc TestRun

/-- The mutable registries of an `ArchonTester` instance
(`self.test_cases` / `self.test_suites` / `self.test_runs`) together with
the registries of the execution engine and the report generator it owns. -/
structure TesterState where
  test_cases : List (String × TestCase)
  test_suites : List (String × TestSuite)
  test_runs : List (String × TestRun)
  engine_cases : List (String × TestCase)
  engine_suites : List (String × TestSuite)
  rg_cases : List (String × TestCase)
  rg_suites : List (String × TestSuite)
  rg_runs : List (String × TestRun)

/-- A fresh `ArchonTester`: all registries empty. -/
def TesterState.init : TesterState :=
  { test_cases := [], test_suites := [], test_runs := [],
    engine_cases := [], engine_suites := [],
    rg_cases := [], rg_suites := [], rg_runs := [] }

/-- The summary metadata the adapter writes back onto the agent after a
run (the exact mapping shape is internal to the adapter and irrelevant to
the claims). -/
def metadataOfRun (run : TestRun) : List (String × PyVal) :=
  run.summary.map (fun p => (p.1, PyVal.vNum (p.2 : ℚ)))

/-- Modelled from the spec: the adapter's `update_agent_with_test_results`
(from the missing `archon.adapter` module) invokes `update_agent_metadata`
once with the run's summary metrics, and a failure there is logged, not
fatal to the run — it is swallowed, never propagated. -/
def updateAgentWithTestResults (env : Env) (agent_id : String) (run : TestRun) :
    Except PyExc Unit :=
  match env.update_agent_metadata agent_id (metadataOfRun run) with
  | .ok _ => .ok ()
  | .error _ => .ok ()

/-- Python `str.capitalize()`. -/
def pyCapitalize (s : String) : String :=
  (s.take 1).toUpper ++ (s.drop 1).toLower

/-- Register a test case into both the tester's and the engine's registry
(lines 104-105 of `src/archon_agent_tester.py`). -/
def registerCase (st : TesterState) (tc : TestCase) : TesterState :=
  { st with test_cases := pyDictSet st.test_cases tc.id tc,
            engine_cases := pyDictSet st.engine_cases tc.id tc }

/-- Register a test suite into both the tester's and the engine's registry. -/
def registerSuite (st : TesterState) (ts : TestSuite) : TesterState :=
  { st with test_suites := pyDictSet st.test_suites ts.id ts,
            engine_suites := pyDictSet st.engine_suites ts.id ts }

/-- The `try` body of `ArchonTester.test_agent` (lines 93-137): verify the
agent, resolve or build the suite, execute it, store the run, write the
summary back to the agent, return the run. The state records every
registry mutation made before a failure point. -/
def testAgentBody (env : Env) (st : TesterState) (agent_id : String)
    (test_suite : Sum String TestSuite) :
    TesterState × Except PyExc TestRun :=
  match env.get_agent agent_id with
  | .error e => (st, .error e)
  | .ok agent =>
    let afterSuite : TesterState × Except PyExc TestSuite :=
      match test_suite with
      | .inl tname =>
        match TestType.ofString tname with
        | .error e => (st, .error e)
        | .ok tt =>
          match env.generate_test_cases_for_agent agent_id tt with
          | .error e => (st, .error e)
          | .ok tcs =>
            let st1 := tcs.foldl registerCase st
            match pyDictGet agent "name" with
            | .error e => (st1, .error e)
            | .ok nm =>
              match env.create_test_suite agent_id tcs
                  (nm.toStr ++ " - " ++ pyCapitalize tname ++ " Tests")
                  (pyCapitalize tname ++ " tests for " ++ nm.toStr) with
              | .error e => (st1, .error e)
              | .ok suite => (registerSuite st1 suite, .ok suite)
      | .inr suite =>
        if (st.test_suites.lookup suite.id).isSome then (st, .ok suite)
        else (registerSuite st suite, .ok suite)
    match afterSuite with
    | (st', .error e) => (st', .error e)
    | (st', .ok suite) =>
      match env.execute_test_suite suite.id agent_id with
      | .error e => (st', .error e)
      | .ok run =>
        let st2 := { st' with test_runs := pyDictSet st'.test_runs run.id run }
        match updateAgentWithTestResults env agent_id run with
        | .error e => (st2, .error e)
        | .ok _ => (st2, .ok run)

/-- The `except` clauses of `test_agent` (lines 138-141):
`AgentNotFoundError` and `TestSuiteNotFoundError` re-raised unchanged,
every other exception wrapped into `ArchonAgentTesterError`. -/
def wrapTesterExc (agent_id : String) (e : PyExc) : PyExc :=
  match e with
  | .agentNotFoundError m => .agentNotFoundError m
  | .testSuiteNotFoundError m => .testSuiteNotFoundError m
  | e => .archonAgentTesterError ("Error testing agent " ++ agent_id ++ ": " ++ e.toStr)

/-- `ArchonTester.test_agent`: the body under its exception handler. -/
def ArchonTester.test_agent (env : Env) (st : TesterState) (agent_id : String)
    (test_suite : Sum String TestSuite) :
    TesterState × Except PyExc TestRun :=
  match testAgentBody env st agent_id test_suite with
  | (st', .ok run) => (st', .ok run)
  | (st', .error e) => (st', .error (wrapTesterExc agent_id e))

/-- The report generator's `generate_report` (from the missing
`reporting.generators` module), as an abstract effectful operation from
(run id, format) to a rendered document or path. -/
structure ReportEnv where
  render : String → String → Except PyExc String

/-- Lines 179-184 of `generate_report`: copy the tester's case/suite
registries into the report generator, register the run there, render. -/
def generateReportAfterLookup (renv : ReportEnv) (st : TesterState)
    (run : TestRun) (format : String) : TesterState × Except PyExc String :=
  let st2 := { st with rg_cases := pyDictUpdate st.rg_cases st.test_cases,
                       rg_suites := pyDictUpdate st.rg_suites st.test_suites,
                       rg_runs := pyDictSet st.rg_runs run.id run }
  match renv.render run.id format with
  | .ok p => (st2, .ok p)
  | .error e => (st2, .error e)

/-- The `try` body of `ArchonTester.generate_report` (lines 162-184).
`TestRunNotFoundError` is defined nowhere in the module or its imports, so
the `raise TestRunNotFoundError(...)` at line 168 raises `NameError`. -/
def generateReportBody (renv : ReportEnv) (st : TesterState)
    (test_run : Sum String TestRun) (format : String) :
    TesterState × Except PyExc String :=
  match test_run with
  | .inl rid =>
    match st.test_runs.lookup rid with
    | none => (st, .error (.nameError "name TestRunNotFoundError is not defined"))
    | some r => generateReportAfterLookup renv st r format
  | .inr r =>
    let st' :=
      if (st.test_runs.lookup r.id).isSome then st
      else { st with test_runs := pyDictSet st.test_runs r.id r }
    generateReportAfterLookup renv st' r format

/-- `ArchonTester.generate_report`: when any exception propagates from the
body, evaluating the first handler clause `except TestRunNotFoundError:`
(line 185) itself raises `NameError` — the name is undefined — and that
`NameError` escapes the `try` statement before `except Exception` (line
187) is ever considered. So every body failure surfaces as `NameError`. -/
def ArchonTester.generate_report (renv : ReportEnv) (st : TesterState)
    (test_run : Sum String TestRun) (format : String) :
    TesterState × Except PyExc String :=
  match generateReportBody renv st test_run format with
  | (st', .ok p) => (st', .ok p)
  | (st', .error _) =>
      (st', .error (.nameError "name TestRunNotFoundError is not defined"))

/-- `ArchonTester.create_custom_test_case` (lines 266-321): substitute the
default criterion when `evaluation_criteria` is `None`, default the tags,
construct the `TestCase` (whose validation may raise — there is no
`try/except` here), and register it on success. The generated uuid is the
explicit `uuid` argument. -/
def ArchonTester.create_custom_test_case (uuid : String) (st : TesterState)
    (name description : String) (test_type : TestType)
    (inputs : List (String × PyVal))
    (expected_outputs : Option (List (String × PyVal)) := none)
    (evaluation_criteria : Option (List (String × PyVal)) := none)
    (tags : Option (List String) := none) (timeout : Int := 30) :
    TesterState × Except PyExc TestCase :=
  let crit :=
    match evaluation_criteria with
    | none => [("response_not_empty",
                PyVal.vStr "The agent should provide a non-empty response")]
    | some c => c
  let tags' :=
    match tags with
    | none => [test_type.toStr, "custom"]
    | some t => t
  match TestCase.create uuid name description test_type inputs
      expected_outputs crit tags' timeout with
  | .error e => (st, .error e)
  | .ok tc => (registerCase st tc, .ok tc)

/-! ### Concrete fixtures used by witness theorems -/

/-- A concrete agent record as the gateway returns it. -/
def agentA : List (String × PyVal) := [("name", PyVal.vStr "Agent One")]

/-- A concrete test suite. -/
def suiteA : TestSuite :=
  { id := "suite-1", name := "Suite One", description := "a suite",
    test_cases := ["tc-1"], tags := [], created_at := 0, updated_at := 0 }

/-- A concrete completed test run (with a runner-maintained summary). -/
def runA : TestRun :=
  TestRun.create "run-1" "agent-1" "suite-1" .passed 0 (some 1000) ["r-1"]
    [("total", 1), ("pending", 0), ("passed", 1), ("failed", 0),
     ("error", 0), ("skipped", 0)]

/-- An environment whose agent lookup fails with `AgentNotFoundError`. -/
def envNotFound : Env :=
  { get_agent := fun _ => .error (.agentNotFoundError "Agent not found: no such agent"),
    update_agent_metadata := fun _ _ => .ok [],
    generate_test_cases_for_agent := fun _ _ => .ok [],
    create_test_suite := fun _ _ n d =>
      .ok { suiteA with name := n, description := d },
    execute_test_suite := fun _ _ => .ok runA }

/-- An environment where everything succeeds except the post-run metadata
write-back, which fails with a gateway error. -/
def envUpdFails : Env :=
  { get_agent := fun _ => .ok agentA,
    update_agent_metadata := fun _ _ => .error (.archonAPIError "API error: 500 - boom"),
    generate_test_cases_for_agent := fun _ _ => .ok [],
    create_test_suite := fun _ _ n d =>
      .ok { suiteA with name := n, description := d },
    execute_test_suite := fun _ _ => .ok runA }

/-- An environment whose agent lookup fails with an exception foreign to
the tester's taxonomy. -/
def envBodyFails : Env :=
  { get_agent := fun _ => .error (.valueError "boom"),
    update_agent_metadata := fun _ _ => .ok [],
    generate_test_cases_for_agent := fun _ _ => .ok [],
    create_test_suite := fun _ _ n d =>
      .ok { suiteA with name := n, description := d },
    execute_test_suite := fun _ _ => .ok runA }

/-- A report environment whose renderer always succeeds. -/
def renvA : ReportEnv := { render := fun _ _ => .ok "report.json" }

/-- A concrete non-2xx, non-404 HTTP response. -/
def respA : HttpResponse := { status_code := 500, text := "boom", json := .ok [] }

/-- A transport for `get` that returns `respA`. -/
def tgA : String → Except PyExc HttpResponse := fun _ => .ok respA

/-- A transport for `post` that returns `respA`. -/
def tpA : String → List (String × PyVal) → Except PyExc HttpResponse :=
  fun _ _ => .ok respA

/-! ### Helper lemmas -/

/-- After `d[k] = v`, looking up `k` yields `v`. -/
theorem lookup_pyDictSet_self {α : Type} (m : List (String × α)) (k : String)
    (v : α) : (pyDictSet m k v).lookup k = some v := by
  induction m with
  | nil => simp [pyDictSet, List.lookup]
  | cons p rest ih =>
    obtain ⟨k', v'⟩ := p
    by_cases h : k' = k
    · subst h
      simp [pyDictSet, List.lookup]
    · simp only [pyDictSet, if_neg h, List.lookup]
      have hk : (k == k') = false := by
        simp [beq_iff_eq]
        exact fun hkk => h hkk.symm
      rw [hk]
      exact ih

/-! ### Claim theorems -/

/-- Claim C1, counterexample: a `TestRun` constructed with the non-empty
results list `["r-1"]` and no explicit summary gets the validator-filled
default summary, in which `summary["total"] = 1 = len(results)` but the
per-status counts sum to `0 ≠ 1` — so the claimed invariant
"the sum of the per-status counts equals `summary['total']`" is false at
this input. -/
theorem c1_counterexample :
    (TestRun.create "run-1" "agent-1" "suite-1" .passed 0 none ["r-1"]
        []).summary.lookup "total" = some 1 ∧
    nonTotalSum (TestRun.create "run-1" "agent-1" "suite-1" .passed 0 none
        ["r-1"] []).summary = 0 ∧
    (0 : Int) ≠ 1 := by
  refine ⟨rfl, rfl, by decide⟩

/-- Claim C1, amended: for a `TestRun` constructed with a non-empty results
list and no explicit summary, the validator fills in the default summary
with `summary["total"] = len(results)` and every per-status count
(pending, passed, failed, error, skipped) equal to `0`; hence the
per-status counts sum to `0`, not to `summary["total"]` — the sum-equals-
total invariant holds only for summaries the runner itself maintains, not
for the validator default. -/
theorem c1_default_summary (id aid sid : String) (status : TestStatus)
    (stime : Datetime) (etime : Option Datetime) (results : List String)
    (h : results ≠ []) :
    (TestRun.create id aid sid status stime etime results []).summary =
      [("total", (results.length : Int)), ("pending", 0), ("passed", 0),
       ("failed", 0), ("error", 0), ("skipped", 0)] ∧
    (TestRun.create id aid sid status stime etime results []).summary.lookup
      "total" = some ((results.length : Int)) ∧
    nonTotalSum (TestRun.create id aid sid status stime etime results
      []).summary = 0 := by
  have hs : (TestRun.create id aid sid status stime etime results []).summary =
      [("total", (results.length : Int)), ("pending", 0), ("passed", 0),
       ("failed", 0), ("error", 0), ("skipped", 0)] := by
    simp [TestRun.create, TestRun.calculate_summary, h]
  refine ⟨hs, ?_, ?_⟩
  · rw [hs]; rfl
  · rw [hs]
    simp [nonTotalSum, List.filter]

/-- Witness for the amended C1 at the concrete results list `["r-1"]`. -/
theorem c1_default_summary_witness :
    (TestRun.create "run-9" "agent-9" "suite-9" .running 0 none ["r-1"]
        []).summary =
      [("total", ((["r-1"] : List String).length : Int)), ("pending", 0),
       ("passed", 0), ("failed", 0), ("error", 0), ("skipped", 0)] ∧
    (TestRun.create "run-9" "agent-9" "suite-9" .running 0 none ["r-1"]
        []).summary.lookup "total" = some ((["r-1"] : List String).length : Int) ∧
    nonTotalSum (TestRun.create "run-9" "agent-9" "suite-9" .running 0 none
        ["r-1"] []).summary = 0 :=
  c1_default_summary "run-9" "agent-9" "suite-9" .running 0 none ["r-1"]
    (by simp)

/-- Claim C10: a `TestRun` constructed with an empty results list and no
explicit summary keeps the empty mapping as its summary — in particular it
has no `"total"` key — because `calculate_summary` only fills defaults
when the results list is non-empty (truthy). -/
theorem c10_empty_results_summary (id aid sid : String) (status : TestStatus)
    (stime : Datetime) (etime : Option Datetime) :
    (TestRun.create id aid sid status stime etime [] []).summary = [] ∧
    (TestRun.create id aid sid status stime etime [] []).summary.lookup
      "total" = none := by
  constructor
  · simp [TestRun.create, TestRun.calculate_summary]
  · simp [TestRun.create, TestRun.calculate_summary, List.lookup]

/-- Claim C3: constructing a `TestCase` with an empty `evaluation_criteria`
mapping fails with the validation error, and with at least one criterion
(the other fields arbitrary) construction succeeds, returning exactly the
record with the given fields. -/
theorem c3_criteria_validation (id nm ds : String) (tt : TestType)
    (ins : List (String × PyVal)) (eo : Option (List (String × PyVal)))
    (ec : List (String × PyVal)) (tg : List String) (tmo : Int)
    (h : ec ≠ []) :
    TestCase.create id nm ds tt ins eo [] tg tmo =
      .error (.validationError
        "At least one evaluation criterion must be provided") ∧
    TestCase.create id nm ds tt ins eo ec tg tmo =
      .ok { id := id, name := nm, description := ds, test_type := tt,
            inputs := ins, expected_outputs := eo,
            evaluation_criteria := ec, tags := tg, timeout := tmo } := by
  constructor
  · rfl
  · simp [TestCase.create, TestCase.validate_criteria, h]

/-- Witness for C3 at a concrete single-criterion mapping. -/
theorem c3_criteria_validation_witness :
    TestCase.create "tc-1" "name" "desc" .functional [] none [] [] 30 =
      .error (.validationError
        "At least one evaluation criterion must be provided") ∧
    TestCase.create "tc-1" "name" "desc" .functional [] none
        [("response_not_empty", PyVal.vStr "non-empty")] [] 30 =
      .ok { id := "tc-1", name := "name", description := "desc",
            test_type := .functional, inputs := [], expected_outputs := none,
            evaluation_criteria :=
              [("response_not_empty", PyVal.vStr "non-empty")],
            tags := [], timeout := 30 } :=
  c3_criteria_validation "tc-1" "name" "desc" .functional [] none
    [("response_not_empty", PyVal.vStr "non-empty")] [] 30 (by simp)

/-- Claim C2, counterexample: the `TestResult` constructed with
`start_time = 1500` μs, explicit `end_time = 0` μs and no explicit
duration gets `duration_ms = int(-1.5) = -1`, while the spec's formula
`round(-1.5)` gives `-2` (half-to-even) — so `duration_ms` neither equals
the rounded difference nor is non-negative at this input. -/
theorem c2_counterexample :
    (TestResult.create 0 "tc-1" "agent-1" .passed 1500 (some 0) none [] none
        [] [] []).end_time = some 0 ∧
    (TestResult.create 0 "tc-1" "agent-1" .passed 1500 (some 0) none [] none
        [] [] []).duration_ms = some (-1) ∧
    roundHalfEvenMs ((0 : Int) - 1500) = -2 ∧
    ((-1 : Int) ≠ -2 ∧ ¬(0 ≤ (-1 : Int))) := by
  refine ⟨rfl, rfl, by decide, by decide⟩

/-- Claim C2, amended: for every `TestResult` produced by pydantic
construction, (a) if the status is neither pending nor running then
`end_time` is set (filled with the construction moment when absent);
(b) if no explicit `duration_ms` was supplied and `end_time` is set, then
`duration_ms` is the millisecond difference `end_time - start_time`
truncated toward zero (Python `int(...)`, not `round(...)`), which is
negative when `end_time < start_time`; (c) an explicitly supplied
`duration_ms` is kept unchanged, without any consistency check. -/
theorem c2_duration_rule (now : Datetime) (tcid aid : String)
    (status : TestStatus) (stime : Datetime) (et : Option Datetime) (d : Int)
    (inputs : List (String × PyVal)) (ao : Option (List (String × PyVal)))
    (mets : List (String × ℚ)) (errs lgs : List String)
    (h1 : status ≠ .pending) (h2 : status ≠ .running) :
    (TestResult.create now tcid aid status stime et none inputs ao mets errs
      lgs).end_time ≠ none ∧
    (∀ e, (TestResult.create now tcid aid status stime et none inputs ao mets
        errs lgs).end_time = some e →
      (TestResult.create now tcid aid status stime et none inputs ao mets errs
        lgs).duration_ms = some (intTruncMs (e - stime))) ∧
    (TestResult.create now tcid aid status stime et (some d) inputs ao mets
      errs lgs).duration_ms = some d := by
  cases et with
  | none =>
    refine ⟨?_, ?_, ?_⟩
    · simp [TestResult.create, TestResult.set_end_time,
        TestResult.calculate_duration, h1, h2]
    · intro e he
      simp [TestResult.create, TestResult.set_end_time, h1, h2] at he
      simp [TestResult.create, TestResult.set_end_time,
        TestResult.calculate_duration, h1, h2, he]
    · simp [TestResult.create, TestResult.set_end_time,
        TestResult.calculate_duration, h1, h2]
  | some t =>
    refine ⟨?_, ?_, ?_⟩
    · simp [TestResult.create, TestResult.set_end_time,
        TestResult.calculate_duration]
    · intro e he
      simp [TestResult.create, TestResult.set_end_time] at he
      simp [TestResult.create, TestResult.set_end_time,
        TestResult.calculate_duration, he]
    · simp [TestResult.create, TestResult.set_end_time,
        TestResult.calculate_duration]

/-- Witness for the amended C2 at a concrete construction: status passed,
`start_time = 0`, no explicit `end_time` (so it becomes `now = 5000` μs),
duration `5000 / 1000 = 5` ms truncated; an explicit duration `7` is kept. -/
theorem c2_duration_rule_witness :
    (TestResult.create 5000 "tc-1" "agent-1" .passed 0 none none [] none []
      [] []).end_time ≠ none ∧
    (∀ e, (TestResult.create 5000 "tc-1" "agent-1" .passed 0 none none []
        none [] [] []).end_time = some e →
      (TestResult.create 5000 "tc-1" "agent-1" .passed 0 none none [] none []
        [] []).duration_ms = some (intTruncMs (e - 0))) ∧
    (TestResult.create 5000 "tc-1" "agent-1" .passed 0 none (some 7) [] none
      [] [] []).duration_ms = some 7 :=
  c2_duration_rule 5000 "tc-1" "agent-1" .passed 0 none 7 [] none [] [] []
    (by decide) (by decide)

/-- Claim C9: `create_custom_test_case` called with
`evaluation_criteria = None` substitutes the default single criterion
`{"response_not_empty": ...}` and succeeds with non-empty criteria, while
an explicit empty mapping is passed through to `TestCase` and fails with
the validation error instead of being replaced by the default. -/
theorem c9_default_criteria (uuid : String) (st : TesterState)
    (nm ds : String) (tt : TestType) (ins : List (String × PyVal))
    (eo : Option (List (String × PyVal))) (tg : Option (List String))
    (tmo : Int) :
    (∃ tc, (ArchonTester.create_custom_test_case uuid st nm ds tt ins eo none
        tg tmo).2 = .ok tc ∧
      tc.evaluation_criteria =
        [("response_not_empty",
          PyVal.vStr "The agent should provide a non-empty response")] ∧
      tc.evaluation_criteria ≠ []) ∧
    (ArchonTester.create_custom_test_case uuid st nm ds tt ins eo (some [])
      tg tmo).2 =
      .error (.validationError
        "At least one evaluation criterion must be provided") := by
  constructor
  · cases tg <;> exact ⟨_, rfl, rfl, by simp⟩
  · cases tg <;> rfl

/-- Claim C4: when the Agent Gateway's `get_agent` fails with
`AgentNotFoundError`, `test_agent` fails with that same
`AgentNotFoundError` (it is re-raised unchanged by the handler) and the
tester's state — in particular the `test_runs` registry — is completely
unchanged: no `TestRun` is persisted. -/
theorem c4_agent_not_found (env : Env) (st : TesterState) (agent_id : String)
    (ts : Sum String TestSuite) (m : String)
    (h : env.get_agent agent_id = .error (.agentNotFoundError m)) :
    ArchonTester.test_agent env st agent_id ts =
      (st, .error (.agentNotFoundError m)) ∧
    (ArchonTester.test_agent env st agent_id ts).1.test_runs =
      st.test_runs := by
  have hb : testAgentBody env st agent_id ts =
      (st, .error (.agentNotFoundError m)) := by
    unfold testAgentBody
    rw [h]
  have h1 : ArchonTester.test_agent env st agent_id ts =
      (st, .error (.agentNotFoundError m)) := by
    unfold ArchonTester.test_agent
    rw [hb]
    rfl
  exact ⟨h1, by rw [h1]⟩

/-- Witness for C4 at a concrete unknown agent against a fresh tester. -/
theorem c4_agent_not_found_witness :
    ArchonTester.test_agent envNotFound TesterState.init "agent-x"
      (.inl "functional") =
      (TesterState.init,
       .error (.agentNotFoundError "Agent not found: no such agent")) ∧
    (ArchonTester.test_agent envNotFound TesterState.init "agent-x"
      (.inl "functional")).1.test_runs = TesterState.init.test_runs :=
  c4_agent_not_found envNotFound TesterState.init "agent-x"
    (.inl "functional") "Agent not found: no such agent" rfl

/-- Claim C5: calling `generate_report` with an unregistered run id on a
fresh tester does NOT fail with `TestRunNotFoundError` — that name is
defined nowhere in the module or its imports, so line 168 raises
`NameError`, which the handler clause at line 185 (itself evaluating the
undefined name) lets escape. The code contradicts its own docstring,
which promises `TestRunNotFoundError`. -/
theorem c5_unknown_run_raises_nameerror :
    ArchonTester.generate_report renvA TesterState.init (.inl "missing-run")
      "json" =
      (TesterState.init,
       .error (.nameError "name TestRunNotFoundError is not defined")) := by
  rfl

/-- Claim C6: when suite execution completes with a `TestRun` but the
post-run metadata write-back fails with a gateway error, `test_agent`
still returns the completed run and the run is persisted in `test_runs` —
the adapter (modelled from the spec) logs rather than propagates the
write-back failure. -/
theorem c6_writeback_not_fatal (env : Env) (st : TesterState)
    (agent_id : String) (suite : TestSuite) (agent : List (String × PyVal))
    (run : TestRun) (ge : PyExc)
    (hget : env.get_agent agent_id = .ok agent)
    (hexec : env.execute_test_suite suite.id agent_id = .ok run)
    (hupd : env.update_agent_metadata agent_id (metadataOfRun run) =
      .error ge) :
    (ArchonTester.test_agent env st agent_id (.inr suite)).2 = .ok run ∧
    (ArchonTester.test_agent env st agent_id (.inr suite)).1.test_runs.lookup
      run.id = some run := by
  have hu : updateAgentWithTestResults env agent_id run = .ok () := by
    unfold updateAgentWithTestResults
    rw [hupd]
  unfold ArchonTester.test_agent testAgentBody
  rw [hget]
  by_cases hs : (st.test_suites.lookup suite.id).isSome
  · simp only [hs, if_true, hexec, hu]
    exact ⟨trivial, lookup_pyDictSet_self _ _ _⟩
  · simp only [hs, if_false, Bool.false_eq_true, hexec, hu]
    exact ⟨trivial, lookup_pyDictSet_self _ _ _⟩

/-- Witness for C6: a concrete environment whose metadata write-back fails
with a 500 gateway error; `test_agent` still returns and stores `runA`. -/
theorem c6_writeback_not_fatal_witness :
    (ArchonTester.test_agent envUpdFails TesterState.init "agent-1"
      (.inr suiteA)).2 = .ok runA ∧
    (ArchonTester.test_agent envUpdFails TesterState.init "agent-1"
      (.inr suiteA)).1.test_runs.lookup runA.id = some runA :=
  c6_writeback_not_fatal envUpdFails TesterState.init "agent-1" suiteA agentA
    runA (.archonAPIError "API error: 500 - boom") rfl rfl rfl

/-- Claim C7: whenever the body of `test_agent` raises, the exception that
`test_agent` raises is an `ArchonAgentTesterError` (an instance of the
taxonomy rooted at that class): `AgentNotFoundError` and
`TestSuiteNotFoundError` propagate unchanged, and every other exception is
wrapped into the top-level `ArchonAgentTesterError` whose message carries
the original cause's message. -/
theorem c7_single_error_surface (env : Env) (st : TesterState)
    (agent_id : String) (ts : Sum String TestSuite) (e : PyExc)
    (h : (testAgentBody env st agent_id ts).2 = .error e) :
    (ArchonTester.test_agent env st agent_id ts).2 =
      .error (wrapTesterExc agent_id e) ∧
    (wrapTesterExc agent_id e).isArchonAgentTesterError = true ∧
    (∀ m, e = .agentNotFoundError m → wrapTesterExc agent_id e = e) ∧
    (∀ m, e = .testSuiteNotFoundError m → wrapTesterExc agent_id e = e) ∧
    ((∀ m, e ≠ .agentNotFoundError m) → (∀ m, e ≠ .testSuiteNotFoundError m) →
      wrapTesterExc agent_id e =
        .archonAgentTesterError
          ("Error testing agent " ++ agent_id ++ ": " ++ e.toStr)) := by
  refine ⟨?_, ?_, ?_, ?_, ?_⟩
  · unfold ArchonTester.test_agent
    rcases hb : testAgentBody env st agent_id ts with ⟨st', r⟩
    rw [hb] at h
    simp only at h
    rw [h]
  · cases e <;> rfl
  · intro m hm
    subst hm
    rfl
  · intro m hm
    subst hm
    rfl
  · intro h1 h2
    cases e <;> first
      | rfl
      | exact absurd rfl (h1 _)
      | exact absurd rfl (h2 _)

/-- Witness for C7: a concrete environment whose body fails with a foreign
`ValueError`; `test_agent` surfaces it wrapped as `ArchonAgentTesterError`
carrying the original message. -/
theorem c7_single_error_surface_witness :
    (ArchonTester.test_agent envBodyFails TesterState.init "agent-1"
      (.inl "functional")).2 =
      .error (wrapTesterExc "agent-1" (.valueError "boom")) ∧
    (wrapTesterExc "agent-1" (.valueError "boom")).isArchonAgentTesterError =
      true ∧
    (∀ m, (PyExc.valueError "boom") = .agentNotFoundError m →
      wrapTesterExc "agent-1" (.valueError "boom") = .valueError "boom") ∧
    (∀ m, (PyExc.valueError "boom") = .testSuiteNotFoundError m →
      wrapTesterExc "agent-1" (.valueError "boom") = .valueError "boom") ∧
    ((∀ m, (PyExc.valueError "boom") ≠ .agentNotFoundError m) →
      (∀ m, (PyExc.valueError "boom") ≠ .testSuiteNotFoundError m) →
      wrapTesterExc "agent-1" (.valueError "boom") =
        .archonAgentTesterError
          ("Error testing agent " ++ "agent-1" ++ ": " ++
            (PyExc.valueError "boom").toStr)) :=
  c7_single_error_surface envBodyFails TesterState.init "agent-1"
    (.inl "functional") (.valueError "boom") rfl

/-- Claim C8: when the transport delivers a response `r`,
`ArchonClient.get_agent` and `ArchonClient.invoke_agent` raise
`AgentNotFoundError` exactly when `r.status_code = 404`, and for every
other non-2xx status they raise `ArchonAPIError` whose message carries
both the status code and the response body verbatim (inside the outer
per-method context string). -/
theorem c8_client_error_mapping (tg : String → Except PyExc HttpResponse)
    (tp : String → List (String × PyVal) → Except PyExc HttpResponse)
    (agent_id : String) (inputs : List (String × PyVal)) (r : HttpResponse)
    (hg : tg agent_id = .ok r) (hp : tp agent_id inputs = .ok r) :
    ((∃ m, ArchonClient.get_agent tg agent_id =
        .error (.agentNotFoundError m)) ↔ r.status_code = 404) ∧
    ((∃ m, ArchonClient.invoke_agent tp agent_id inputs =
        .error (.agentNotFoundError m)) ↔ r.status_code = 404) ∧
    (¬r.is2xx → r.status_code ≠ 404 →
      ArchonClient.get_agent tg agent_id =
        .error (.archonAPIError ("Error getting agent " ++ agent_id ++
          ": API error: " ++ toString r.status_code ++ " - " ++ r.text)) ∧
      ArchonClient.invoke_agent tp agent_id inputs =
        .error (.archonAPIError ("Error invoking agent " ++ agent_id ++
          ": API error: " ++ toString r.status_code ++ " - " ++ r.text))) := by
  have hhr : ∀ ctx : String,
      ((∃ m, ArchonClient.wrapNonNotFound ctx (ArchonClient.handle_response r)
          = .error (.agentNotFoundError m)) ↔ r.status_code = 404) ∧
      (¬r.is2xx → r.status_code ≠ 404 →
        ArchonClient.wrapNonNotFound ctx (ArchonClient.handle_response r) =
          .error (.archonAPIError (ctx ++ "API error: " ++
            toString r.status_code ++ " - " ++ r.text))) := by
    intro ctx
    unfold ArchonClient.handle_response ArchonClient.wrapNonNotFound
    by_cases h2 : r.is2xx
    · have h404 : r.status_code ≠ 404 := by
        rcases h2 with ⟨_, hlt⟩
        omega
      simp only [h2, if_true]
      constructor
      · cases hj : r.json <;> simp [hj, h404]
      · intro hn2 _
        exact absurd trivial hn2
    · simp only [h2, if_false]
      by_cases h4 : r.status_code = 404
      · simp [h4]
      · simp [h4, PyExc.toStr, String.append_assoc]
  have hg' : ArchonClient.get_agent tg agent_id =
      ArchonClient.wrapNonNotFound ("Error getting agent " ++ agent_id ++ ": ")
        (ArchonClient.handle_response r) := by
    unfold ArchonClient.get_agent
    rw [hg]
  have hp' : ArchonClient.invoke_agent tp agent_id inputs =
      ArchonClient.wrapNonNotFound ("Error invoking agent " ++ agent_id ++ ": ")
        (ArchonClient.handle_response r) := by
    unfold ArchonClient.invoke_agent
    rw [hp]
  refine ⟨?_, ?_, ?_⟩
  · rw [hg']
    exact (hhr _).1
  · rw [hp']
    exact (hhr _).1
  · intro hn2 h4
    have hlit : (": " : String) ++ "API error: " = ": API error: " := rfl
    have hmg : ("Error getting agent " ++ agent_id ++ ": ") ++ "API error: "
        = "Error getting agent " ++ agent_id ++ ": API error: " := by
      rw [String.append_assoc, hlit]
    have hmi : ("Error invoking agent " ++ agent_id ++ ": ") ++ "API error: "
        = "Error invoking agent " ++ agent_id ++ ": API error: " := by
      rw [String.append_assoc, hlit]
    constructor
    · rw [hg', (hhr ("Error getting agent " ++ agent_id ++ ": ")).2 hn2 h4,
        ← hmg]
    · rw [hp', (hhr ("Error invoking agent " ++ agent_id ++ ": ")).2 hn2 h4,
        ← hmi]

/-- Witness for C8: a concrete 500 response with body `"boom"`; both
sides of each 404-iff are false, and the `ArchonAPIError` messages embed
status `500` and body `"boom"`. -/
theorem c8_client_error_mapping_witness :
    ((∃ m, ArchonClient.get_agent tgA "agent-1" =
        .error (.agentNotFoundError m)) ↔ respA.status_code = 404) ∧
    ((∃ m, ArchonClient.invoke_agent tpA "agent-1" [] =
        .error (.agentNotFoundError m)) ↔ respA.status_code = 404) ∧
    (¬respA.is2xx → respA.status_code ≠ 404 →
      ArchonClient.get_agent tgA "agent-1" =
        .error (.archonAPIError ("Error getting agent " ++ "agent-1" ++
          ": API error: " ++ toString respA.status_code ++ " - " ++
          respA.text)) ∧
      ArchonClient.invoke_agent tpA "agent-1" [] =
        .error (.archonAPIError ("Error invoking agent " ++ "agent-1" ++
          ": API error: " ++ toString respA.status_code ++ " - " ++
          respA.text))) :=
  c8_client_error_mapping tgA tpA "agent-1" [] respA rfl rfl

end ArchonAiTester
